import Mathlib

/-!
Verification development for the YD downloader repository (src/yd4.py and
src/Yd.py).  The development shallowly embeds the download orchestration
engine: the platform default-path resolver, the yt-dlp option construction,
the progress-hook normalization of the two front ends of each file, the
final-file resolution chain, and the websocket wire protocol of both web
variants.  The filesystem is modelled explicitly (an existence predicate plus
the listing of the output directory), the extraction adapter as the outcome
it produces (an info object, or an exception message), and its progress
events as a list of records.
-/

namespace YD

/-! ### Character-level models of the Python string primitives used by the code

These mirror `str.strip`, `str.replace('%','')`, `str.startswith`,
substring membership (`in`), `os.path.splitext` and `float()` as the source
uses them, working on `List Char` so that every witness evaluates by kernel
reduction. -/

/-- Whitespace test matching the characters Python's `str.strip()` removes
(ASCII subset, which is all the code ever feeds it). -/
def isPyWs (c : Char) : Bool :=
  c == ' ' || c == '\t' || c == '\n' || c == '\r' || c == '\x0b' || c == '\x0c'

/-- Strip leading and trailing whitespace from a character list. -/
def trimL (l : List Char) : List Char :=
  ((l.dropWhile isPyWs).reverse.dropWhile isPyWs).reverse

/-- Model of Python `s.strip()`. -/
def pyStrip (s : String) : String := ⟨trimL s.data⟩

/-- Model of Python `s.replace('%','')`: with an empty replacement and a
one-character pattern this is exactly removal of every `'%'`. -/
def removePercent (s : String) : String := ⟨s.data.filter (fun c => c != '%')⟩

/-- Boolean prefix test on character lists. -/
def isPrefixL : List Char → List Char → Bool
  | [], _ => true
  | _ :: _, [] => false
  | a :: as, b :: bs => a == b && isPrefixL as bs

/-- Model of Python `s.startswith(t)`. -/
def strStartsWith (s t : String) : Bool := isPrefixL t.data s.data

/-- Boolean infix test on character lists; `isInfixL p l` is Python `p in l`
for strings. -/
def isInfixL (p : List Char) : List Char → Bool
  | [] => isPrefixL p []
  | c :: rest => isPrefixL p (c :: rest) || isInfixL p rest

/-- Model of Python substring membership `pat in s`. -/
def containsSubstrB (pat s : String) : Bool := isInfixL pat.data s.data

/-- Boolean suffix test on character lists. -/
def isSuffixL (p l : List Char) : Bool := isPrefixL p.reverse l.reverse

/-- Model of Python `s.endswith(t)`; used only to state properties about
produced paths. -/
def strEndsWith (s t : String) : Bool := isSuffixL t.data s.data

/-- Index of the last occurrence of `c` in `l`, if any (CPython's `rfind`). -/
def lastIndexOf? (c : Char) (l : List Char) : Option Nat :=
  ((l.enum.filter (fun p => p.2 == c)).map Prod.fst).getLast?

/-- Root component of CPython's `os.path.splitext` on posix paths: split at
the last dot, provided it lies after the last separator and at least one
non-dot character of the basename precedes it (so dotfiles keep their name). -/
def splitextStemL (l : List Char) : List Char :=
  match lastIndexOf? '.' l with
  | none => l
  | some d =>
    let f : Nat := match lastIndexOf? '/' l with | some s2 => s2 + 1 | none => 0
    let dotAfterSep : Bool :=
      match lastIndexOf? '/' l with | some s2 => decide (s2 < d) | none => true
    if dotAfterSep && ((l.drop f).take (d - f)).any (fun ch => ch != '.') then
      l.take d
    else l

/-- Model of `os.path.splitext(p)[0]`. -/
def splitextStem (s : String) : String := ⟨splitextStemL s.data⟩

/-- Numeric value of a digit string. -/
def digitsVal (l : List Char) : Nat :=
  l.foldl (fun a c => a * 10 + (c.toNat - 48)) 0

/-- Unsigned decimal numeral parser: digits with an optional single dot,
at least one digit overall (`"1."` and `".5"` parse, `"."` and `""` fail). -/
def parseUnsigned? (l : List Char) : Option ℚ :=
  let intPart := l.takeWhile (fun c => c != '.')
  let rest := l.dropWhile (fun c => c != '.')
  if !intPart.all Char.isDigit then none
  else
    match rest with
    | [] => if intPart.isEmpty then none else some (digitsVal intPart : ℚ)
    | _ :: frac =>
      if frac.all Char.isDigit && !(intPart.isEmpty && frac.isEmpty) then
        some ((digitsVal intPart : ℚ) + (digitsVal frac : ℚ) / (10 ^ frac.length : ℚ))
      else none

/-- Model of Python `float(s)` on the plain decimal numerals the progress
strings carry: surrounding whitespace is tolerated (as `float` does), an
optional sign, then an unsigned decimal numeral; anything else fails. -/
def parseFloat? (s : String) : Option ℚ :=
  match trimL s.data with
  | '-' :: rest => (parseUnsigned? rest).map Neg.neg
  | '+' :: rest => parseUnsigned? rest
  | l => parseUnsigned? l

/-! ### Data model: filesystem, adapter events, extraction info -/

/-- Snapshot of the parts of the filesystem the engine consults: a path
existence predicate (`os.path.exists`) and the immediate entries of the
output directory (`os.listdir(output_path)`, in listing order). -/
structure FS where
  pathExists : String → Bool
  dirEntries : List String

/-- A raw progress dictionary emitted by the extraction adapter, restricted
to the fields the code reads: `status`, `_percent_str` (possibly absent) and
`filename` (possibly absent). -/
structure RawEvent where
  status : String
  percentStr : Option String
  filename : Option String
deriving DecidableEq

/-- The metadata `extract_info` returns that the engine consults:
`info.get('title')` and `ydl.prepare_filename(info)`. -/
structure ExtractionInfo where
  title : Option String
  preparedFilename : String
deriving DecidableEq

/-- Outcome of the adapter call `ydl.extract_info(url, download=True)`:
either it returns (an info object or `None`), or it raises with a message. -/
inductive AdapterOutcome where
  | returns (info? : Option ExtractionInfo)
  | raises (msg : String)
deriving DecidableEq

/-- One run of the extraction adapter: the progress events it emitted, how
the call ended, and the filesystem state the engine sees afterwards. -/
structure AdapterRun where
  events : List RawEvent
  outcome : AdapterOutcome
  fs : FS

/-! ### Engine: src/yd4.py DownloaderEngine.download -/

/-- Filename captured by `internal_hook` (yd4.py lines 113-117): every event
with status `finished` overwrites `downloaded_file` with its `filename`
field, so the value left is the last finished event's field (possibly
`None`). -/
def lastFinishedFilename (events : List RawEvent) : Option String :=
  events.foldl (fun acc e => if e.status = "finished" then e.filename else acc) none

/-- Format selector and postprocessor chain installed into `ydl_opts`. -/
structure Postprocessor where
  key : String
  preferredcodec : String
  preferredquality : Option String
deriving DecidableEq

/-- Format-dependent part of `ydl_opts` built by yd4.py lines 99-109. -/
structure YdlFormatOpts where
  format : String
  postprocessors : List Postprocessor
deriving DecidableEq

/-- Option construction of src/yd4.py (lines 99-109): the string `"audio"`
selects audio extraction with an mp3 transcode postprocessor; every other
format string takes the `else` branch with the plain video selector and no
postprocessors. -/
def yd4_format_opts (fmt : String) : YdlFormatOpts :=
  if fmt = "audio" then
    ⟨"bestaudio/best", [⟨"FFmpegExtractAudio", "mp3", some "192"⟩]⟩
  else
    ⟨"bestvideo+bestaudio/best", []⟩

/-- Option construction of src/Yd.py (lines 139-145): same shape, with an
mp4-constrained video selector and no quality setting on the audio
postprocessor. -/
def Yd_format_opts (fmt : String) : YdlFormatOpts :=
  if fmt = "audio" then
    ⟨"bestaudio/best", [⟨"FFmpegExtractAudio", "mp3", none⟩]⟩
  else
    ⟨"bestvideo[ext=mp4]+bestaudio[ext=m4a]/best[ext=mp4]/best", []⟩

/-- Expected final path computed by yd4.py lines 133-139: for `"audio"` the
prepared filename with its extension stripped and `.mp3` appended, otherwise
the prepared filename unchanged. -/
def expectedFinalFile (fmt prepared : String) : String :=
  if fmt = "audio" then splitextStem prepared ++ ".mp3" else prepared

/-- Model of `os.path.join(output_path, file)` on posix paths. -/
def osJoin (dir file : String) : String := dir ++ "/" ++ file

/-- Last-resort title scan of yd4.py lines 148-154: performed only when
`info.get('title')` is truthy (present and non-empty), it returns the first
directory entry containing the title as a substring. -/
def titleScan (title? : Option String) (entries : List String) : Option String :=
  match title? with
  | some t => if t = "" then none else entries.find? (fun f => containsSubstrB t f)
  | none => none

/-- Python truthiness test of `downloaded_file and os.path.exists(downloaded_file)`:
the captured name must be present, non-empty, and exist on disk. -/
def pyTruthyFile (df? : Option String) (fs : FS) : Bool :=
  match df? with
  | some df => (df != "") && fs.pathExists df
  | none => false

/-- Last `else` block of yd4.py lines 147-156: the title scan decides, and
a miss is the file-not-found failure naming the output directory. -/
def scanFallback (title? : Option String) (fs : FS) (outputPath : String) :
    Bool × String :=
  match titleScan title? fs.dirEntries with
  | some f => (true, osJoin outputPath f)
  | none => (false, "Download completed but file not found in " ++ outputPath)

/-- Final-file resolution of yd4.py lines 131-158, entered after
`extract_info` returned: expected path first, then the (truthy) filename
captured from finished events if it exists, then the title-scan fallback; a
`None` info object is the extraction-failure message. -/
def resolveFinalFile (fmt : String) (info? : Option ExtractionInfo)
    (downloadedFile : Option String) (fs : FS) (outputPath : String) :
    Bool × String :=
  match info? with
  | none => (false, "Failed to extract video information")
  | some info =>
    let final := expectedFinalFile fmt info.preparedFilename
    if fs.pathExists final then (true, final)
    else if pyTruthyFile downloadedFile fs then (true, downloadedFile.getD "")
    else scanFallback info.title fs outputPath

/-- Error sanitization of yd4.py lines 160-164: a message mentioning the
internal thread-marshalling helper or a raw `ERROR:` artifact is replaced
wholesale by a generic message. -/
def sanitizeError (msg : String) : String :=
  if containsSubstrB "call_from_thread" msg || containsSubstrB "ERROR:" msg then
    "Download failed. Please check the URL and try again."
  else msg

/-- The whole of `DownloaderEngine.download` of src/yd4.py after the output
path has been normalized: a directory-creation failure returns early, an
adapter exception is caught and sanitized, and a returned info object goes
through the resolution chain.  (URL handling, `os.path.abspath` and the
default-path substitution happen before this point and are modelled at the
call sites.) -/
def engineDownload (fmt outputPath : String) (mkdirError : Option String)
    (run : AdapterRun) : Bool × String :=
  match mkdirError with
  | some e => (false, "Failed to create directory: " ++ e)
  | none =>
    match run.outcome with
    | .raises m => (false, sanitizeError m)
    | .returns info? =>
      resolveFinalFile fmt info? (lastFinishedFilename run.events) run.fs outputPath

/-! ### Progress-hook normalization of the four front-end hooks -/

/-- A message the TUI front end marshals onto its UI thread. -/
inductive TuiMsg where
  | updateProgress (percent : ℚ)
  | logLine (msg : String)
deriving DecidableEq

/-- Messages sent over a websocket job channel.  yd4.py's `done` carries a
path; Yd.py's carries none, so the payload is optional. -/
inductive WsMsg where
  | progress (percent : ℚ) (status : String)
  | log (msg : String)
  | done (path : Option String)
  | error (msg : String)
deriving DecidableEq

/-- Progress hook of the yd4.py TUI (`download_task`, lines 306-315): a
`downloading` event has its `_percent_str` (defaulting to `'0%'`) cleaned of
percent signs, stripped and parsed; parse failure drops the event; a
`finished` event logs a processing line; any other status does nothing. -/
def yd4_tui_hook (e : RawEvent) : Option TuiMsg :=
  if e.status = "downloading" then
    match parseFloat? (pyStrip (removePercent (e.percentStr.getD "0%"))) with
    | some q => some (.updateProgress q)
    | none => none
  else if e.status = "finished" then
    some (.logLine "Download complete. Processing...")
  else none

/-- Progress hook of the yd4.py web endpoint (`web_hook`, lines 554-569):
same `downloading` parsing; a `finished` event sends a progress message with
percent forced to 100 and status `Processing...`. -/
def yd4_web_hook (e : RawEvent) : Option WsMsg :=
  if e.status = "downloading" then
    match parseFloat? (pyStrip (removePercent (e.percentStr.getD "0%"))) with
    | some q => some (.progress q "Downloading...")
    | none => none
  else if e.status = "finished" then
    some (.progress 100 "Processing...")
  else none

/-- Progress hook of the Yd.py web endpoint (`web_hook`, lines 246-259): no
explicit strip before `float` (which tolerates whitespace itself); a
`finished` event sends a `log`-type message with no percent. -/
def Yd_web_hook (e : RawEvent) : Option WsMsg :=
  if e.status = "downloading" then
    match parseFloat? (removePercent (e.percentStr.getD "0%")) with
    | some q => some (.progress q "Downloading...")
    | none => none
  else if e.status = "finished" then
    some (.log "Processing file...")
  else none

/-! ### Front-end start gates -/

/-- Outcome of pressing the start control in a TUI. -/
inductive PressOutcome where
  | ignored
  | rejected (logMsg : String)
  | startedWorker (url fmt path : String)
deriving DecidableEq

/-- Error message a press emitted, if any. -/
def pressMessage : PressOutcome → Option String
  | .ignored => none
  | .rejected m => some m
  | .startedWorker _ _ _ => none

/-- State the yd4.py TUI keeps about the job slot. -/
structure TuiState where
  isDownloading : Bool
deriving DecidableEq

/-- Start-button handler of the yd4.py TUI (`on_button_pressed`, lines
276-297): a press while `is_downloading` returns silently; then the stripped
URL is checked, an empty one logs an error; otherwise the worker is started
with the stripped url, the chosen format and the (stripped) path field. -/
def yd4_tui_press (s : TuiState) (rawUrl rawPath : String)
    (audioSelected : Bool) : PressOutcome :=
  if s.isDownloading then .ignored
  else
    let url := pyStrip rawUrl
    let path := pyStrip rawPath
    let fmt := if audioSelected then "audio" else "video"
    if url = "" then .rejected "Error: No URL provided."
    else .startedWorker url fmt path

/-- Start-button handler of the Yd.py TUI (`on_button_pressed`, lines
184-198): the raw URL is used without stripping and only the literally empty
string is rejected. -/
def Yd_tui_press (rawUrl : String) (audioSelected : Bool) : PressOutcome :=
  let fmt := if audioSelected then "audio" else "video"
  if rawUrl = "" then .rejected "Error: No URL provided."
  else .startedWorker rawUrl fmt ""

/-! ### Websocket endpoints -/

/-- Parse result of the first client message on a yd4.py channel: malformed
JSON, or a request whose `url` and `format` fields may each be absent. -/
inductive WsParse where
  | malformed
  | ok (url? : Option String) (format? : Option String)

/-- Websocket job channel of src/yd4.py (`websocket_endpoint`, lines
538-588): malformed JSON answers one error; a missing-or-blank URL answers
one error; otherwise the engine runs with the hook attached and the channel
ends with `done` carrying the final path on success, or `error` carrying the
failure message.  A directory-creation failure happens before the adapter is
invoked, so no hook messages precede that error. -/
def yd4_websocket (p : WsParse) (outPath : String) (mkdirError : Option String)
    (run : AdapterRun) : List WsMsg :=
  match p with
  | .malformed => [.error "Invalid request format"]
  | .ok url? format? =>
    let url := pyStrip (url?.getD "")
    if url = "" then [.error "No URL provided"]
    else
      let fmt := format?.getD "video"
      let res := engineDownload fmt outPath mkdirError run
      let hooks :=
        match mkdirError with
        | some _ => []
        | none => run.events.filterMap yd4_web_hook
      hooks ++ [if res.1 then .done (some res.2) else .error res.2]

/-- Parse result of the first client message on a Yd.py channel: any
exception while receiving/parsing/indexing (`req['url']` may raise
`KeyError`) is caught by the bare handler and stringified, otherwise the raw
url and format are taken as-is — no URL validation of any kind. -/
inductive YdParse where
  | failed (stringifiedError : String)
  | ok (url : String) (format : String)

/-- Websocket job channel of src/Yd.py (`websocket_endpoint`, lines
237-269): a failed parse answers one error; otherwise the engine runs, its
result is discarded, and the channel always ends with a `done` message
carrying no path. -/
def Yd_websocket (p : YdParse) (run : AdapterRun) : List WsMsg :=
  match p with
  | .failed m => [.error m]
  | .ok _ _ => (run.events.filterMap Yd_web_hook) ++ [.done none]

/-! ### Platform default download path (src/yd4.py get_default_download_path) -/

/-- Host environment as the resolver observes it: `sys.platform`, the two
`os.path.exists` probes, and the home directory.  Paths are modelled as
component lists to stay independent of the separator.  The
`sharedDownloadDirExists` field records whether `/storage/emulated/0/Download`
itself exists; the source never consults it. -/
structure Platform where
  system : String
  termuxMarkerExists : Bool
  storageEmulatedExists : Bool
  sharedDownloadDirExists : Bool
  home : List String
deriving DecidableEq

/-- Model of `get_default_download_path` (yd4.py lines 38-69): `<home>/ytd`
on win32, darwin, non-Termux linux and unknown platforms; under Termux the
shared `/storage/emulated/0/Download` whenever `/storage/emulated/0` exists,
else `<home>/storage/downloads`. -/
def get_default_download_path (p : Platform) : List String :=
  if p.system = "win32" then p.home ++ ["ytd"]
  else if p.system = "darwin" then p.home ++ ["ytd"]
  else if strStartsWith p.system "linux" then
    if p.termuxMarkerExists then
      if p.storageEmulatedExists then ["storage", "emulated", "0", "Download"]
      else p.home ++ ["storage", "downloads"]
    else p.home ++ ["ytd"]
  else p.home ++ ["ytd"]

/-! ### Claim-side definitions

These restate spec claims in their own words, to be compared with the
definitions embedded from the source. -/

/-- Title-scan step of claim C1, in the claim's words: the output
directory's immediate entries are scanned for any filename containing the
extracted title substring (a title counts as extracted when it is present
and non-empty) and the first match is a success; otherwise the job fails
with a file-not-found message naming the output directory. -/
def claimTitleStep (title? : Option String) (fs : FS) (outputPath : String) :
    Bool × String :=
  match title? with
  | some t =>
    if t = "" then (false, "Download completed but file not found in " ++ outputPath)
    else
      match fs.dirEntries.find? (fun f => containsSubstrB t f) with
      | some f => (true, osJoin outputPath f)
      | none => (false, "Download completed but file not found in " ++ outputPath)
  | none => (false, "Download completed but file not found in " ++ outputPath)

/-- Resolution chain of claim C1, in the claim's words: the expected path is
the prepared filename, with its extension swapped for `.mp3` for audio; if
it exists the job succeeds with it; otherwise if the filename carried by the
finished progress events (the captured one, i.e. the last reported) exists
on disk the job succeeds with that; otherwise the title scan decides. -/
def resolutionChainClaim (fmt : String) (info : ExtractionInfo)
    (events : List RawEvent) (fs : FS) (outputPath : String) : Bool × String :=
  let expected :=
    if fmt = "audio" then splitextStem info.preparedFilename ++ ".mp3"
    else info.preparedFilename
  if fs.pathExists expected then (true, expected)
  else if pyTruthyFile (lastFinishedFilename events) fs then
    (true, (lastFinishedFilename events).getD "")
  else claimTitleStep info.title fs outputPath

/-- Default download path of claim C8 as amended: `<home>/ytd` everywhere
except under the sandbox marker, where the shared public folder is chosen
whenever its parent `/storage/emulated/0` exists (the `Download` subfolder
itself is never probed), else the sandbox-local downloads folder. -/
def defaultPathAmended (p : Platform) : List String :=
  if strStartsWith p.system "linux" && p.termuxMarkerExists then
    if p.storageEmulatedExists then ["storage", "emulated", "0", "Download"]
    else p.home ++ ["storage", "downloads"]
  else p.home ++ ["ytd"]

/-! ### Wire-protocol observers -/

/-- Terminal messages of the wire protocol: `done` or `error`. -/
def isTerminal : WsMsg → Bool
  | .done _ => true
  | .error _ => true
  | _ => false

/-- Number of terminal messages in a channel transcript. -/
def countTerminal (l : List WsMsg) : Nat := (l.filter isTerminal).length

/-- Tests whether a message is a progress event whose percent was forced to
100, as claim C7 demands of postprocessing notifications. -/
def isForcedHundred : WsMsg → Bool
  | .progress q _ => q == 100
  | _ => false

/-! ## General lemmas about the string helpers -/

theorem data_append (s t : String) : (s ++ t).data = s.data ++ t.data := by
  cases s; cases t; rfl

theorem isPrefixL_self (p l : List Char) : isPrefixL p (p ++ l) = true := by
  induction p with
  | nil => rfl
  | cons a as ih => simp [isPrefixL, ih]

theorem strEndsWith_append (s t : String) : strEndsWith (s ++ t) t = true := by
  unfold strEndsWith isSuffixL
  rw [data_append, List.reverse_append]
  exact isPrefixL_self _ _

/-- The source fallback (title scan, else failure message) coincides with
the claim-side title step. -/
theorem claimTitleStep_eq (t? : Option String) (fs : FS) (out : String) :
    scanFallback t? fs out = claimTitleStep t? fs out := by
  cases t? with
  | none => rfl
  | some t =>
    by_cases h : t = ""
    · subst h; rfl
    · cases hf : fs.dirEntries.find? (fun f => containsSubstrB t f) <;>
        simp [scanFallback, titleScan, claimTitleStep, if_neg h, hf]

/-! ## Claim theorems -/

/-- C1: after the adapter returns an info object, the final path is resolved
by exactly the claimed chain — audio swaps the prepared filename's extension
for `.mp3` to form the expected path (video keeps it unchanged); an existing
expected path wins; else an existing filename carried by the finished
progress events wins; else the first output-directory entry containing the
extracted title wins; else the job fails with a file-not-found message
naming the output directory.  Stated as equality between the engine's
resolution (yd4.py lines 131-158) and the chain written from the claim. -/
theorem c1_final_path_resolution_chain (fmt : String) (info : ExtractionInfo)
    (events : List RawEvent) (fs : FS) (out : String) :
    resolveFinalFile fmt (some info) (lastFinishedFilename events) fs out
      = resolutionChainClaim fmt info events fs out := by
  unfold resolveFinalFile resolutionChainClaim expectedFinalFile
  simp only [claimTitleStep_eq]

/-- C2 counterexample: an audio-format job that ends in success with a path
that does not end in `.mp3`.  The adapter prepared `Song.webm`, the expected
`Song.mp3` does not exist, and the finished-event fallback returns the
untranscoded `Song.webm`. -/
theorem c2_counterexample :
    resolveFinalFile "audio" (some ⟨some "Song", "Song.webm"⟩) (some "Song.webm")
      ⟨fun s => s == "Song.webm", ["Song.webm"]⟩ "out" = (true, "Song.webm")
    ∧ strEndsWith "Song.webm" ".mp3" = false := by
  exact ⟨rfl, by decide⟩

/-- C2 as amended: an audio job resolved by the expected-path step always
returns a path ending in `.mp3`; the fallback steps need not (see the
counterexample). -/
theorem c2_audio_expected_path_is_mp3 (info : ExtractionInfo)
    (df : Option String) (fs : FS) (out : String)
    (h : fs.pathExists (expectedFinalFile "audio" info.preparedFilename) = true) :
    resolveFinalFile "audio" (some info) df fs out
      = (true, expectedFinalFile "audio" info.preparedFilename)
    ∧ strEndsWith (expectedFinalFile "audio" info.preparedFilename) ".mp3" = true := by
  constructor
  · simp only [resolveFinalFile, h, if_true]
  · have he : expectedFinalFile "audio" info.preparedFilename
        = splitextStem info.preparedFilename ++ ".mp3" := by
      simp [expectedFinalFile]
    rw [he]
    exact strEndsWith_append _ _

theorem c2_audio_expected_path_is_mp3_witness :
    (FS.pathExists ⟨fun s => s == "Song.mp3", []⟩
        (expectedFinalFile "audio" "Song.webm") = true)
    ∧ (resolveFinalFile "audio" (some ⟨some "Song", "Song.webm"⟩) none
        ⟨fun s => s == "Song.mp3", []⟩ "out"
        = (true, expectedFinalFile "audio" "Song.webm")
      ∧ strEndsWith (expectedFinalFile "audio" "Song.webm") ".mp3" = true) :=
  ⟨by decide, c2_audio_expected_path_is_mp3 ⟨some "Song", "Song.webm"⟩ none
      ⟨fun s => s == "Song.mp3", []⟩ "out" (by decide)⟩

/-- C6 counterexample: a `downloading` event with the percent field missing
is not dropped — the code substitutes the default `'0%'`, which parses, so
the hooks emit a progress update of percent 0 (shown for the yd4.py TUI and
web hooks alike). -/
theorem c6_counterexample :
    yd4_tui_hook ⟨"downloading", none, none⟩ = some (.updateProgress 0)
    ∧ yd4_web_hook ⟨"downloading", none, none⟩ = some (.progress 0 "Downloading...") := by
  exact ⟨by decide, by decide⟩

/-- C6 as amended: a `downloading` event whose percent string fails to parse
is dropped silently — the hook yields nothing for it — and the surrounding
events (in particular later finished events) are processed exactly as if the
malformed event were absent; a missing percent field instead defaults to
`'0%'` and yields a percent-0 update (see the counterexample). -/
theorem c6_unparsable_percent_dropped (e : RawEvent) (pre post : List RawEvent)
    (h1 : e.status = "downloading")
    (h2 : parseFloat? (pyStrip (removePercent (e.percentStr.getD "0%"))) = none) :
    yd4_tui_hook e = none
    ∧ (pre ++ e :: post).filterMap yd4_tui_hook
        = pre.filterMap yd4_tui_hook ++ post.filterMap yd4_tui_hook := by
  have hnone : yd4_tui_hook e = none := by
    unfold yd4_tui_hook
    rw [h1]
    simp [h2]
  refine ⟨hnone, ?_⟩
  simp [List.filterMap_append, List.filterMap_cons, hnone]

theorem c6_unparsable_percent_dropped_witness :
    RawEvent.status ⟨"downloading", some "N/A", none⟩ = "downloading"
    ∧ parseFloat? (pyStrip (removePercent
        ((RawEvent.percentStr ⟨"downloading", some "N/A", none⟩).getD "0%"))) = none
    ∧ (yd4_tui_hook ⟨"downloading", some "N/A", none⟩ = none
      ∧ ([] ++ (⟨"downloading", some "N/A", none⟩ : RawEvent)
            :: [⟨"finished", none, some "T.mp4"⟩]).filterMap yd4_tui_hook
          = List.filterMap yd4_tui_hook []
            ++ List.filterMap yd4_tui_hook [⟨"finished", none, some "T.mp4"⟩]) :=
  ⟨rfl, by decide,
    c6_unparsable_percent_dropped ⟨"downloading", some "N/A", none⟩ []
      [⟨"finished", none, some "T.mp4"⟩] rfl (by decide)⟩

/-- C7 counterexample: in the Yd.py web hook, a `finished` event triggers a
`log`-type message carrying no percent at all, not a progress event with the
percent forced to 100. -/
theorem c7_counterexample :
    Yd_web_hook ⟨"finished", none, some "dir/Title.mp4"⟩
      = some (.log "Processing file...")
    ∧ (Yd_web_hook ⟨"finished", none, some "dir/Title.mp4"⟩).map isForcedHundred
        = some false := by
  exact ⟨rfl, rfl⟩

/-- C7 as amended: every `finished` adapter event triggers exactly one
postprocessing notification toward the front end, delivered while the job is
still in flight (before its terminal result): the yd4.py web hook sends a
progress message with percent forced to 100; the yd4.py TUI hook and the
Yd.py web hook emit a processing notice without a percent value. -/
theorem c7_finished_postprocessing (e : RawEvent) (h : e.status = "finished") :
    yd4_web_hook e = some (.progress 100 "Processing...")
    ∧ yd4_tui_hook e = some (.logLine "Download complete. Processing...")
    ∧ Yd_web_hook e = some (.log "Processing file...") := by
  refine ⟨?_, ?_, ?_⟩ <;> (first
    | (unfold yd4_web_hook; rw [h]; rfl)
    | (unfold yd4_tui_hook; rw [h]; rfl)
    | (unfold Yd_web_hook; rw [h]; rfl))

theorem c7_finished_postprocessing_witness :
    RawEvent.status ⟨"finished", none, some "dir/Title.mp4"⟩ = "finished"
    ∧ (yd4_web_hook ⟨"finished", none, some "dir/Title.mp4"⟩
          = some (.progress 100 "Processing...")
      ∧ yd4_tui_hook ⟨"finished", none, some "dir/Title.mp4"⟩
          = some (.logLine "Download complete. Processing...")
      ∧ Yd_web_hook ⟨"finished", none, some "dir/Title.mp4"⟩
          = some (.log "Processing file...")) :=
  ⟨rfl, c7_finished_postprocessing ⟨"finished", none, some "dir/Title.mp4"⟩ rfl⟩

/-- C8 counterexample: under the sandbox marker with `/storage/emulated/0`
present but its `Download` subfolder absent, the resolver still returns the
shared folder — it probes only the parent — whereas the claim requires the
sandbox-local fallback when the `Download` folder itself does not exist. -/
theorem c8_counterexample :
    get_default_download_path ⟨"linux", true, true, false, ["home", "user"]⟩
      = ["storage", "emulated", "0", "Download"]
    ∧ Platform.sharedDownloadDirExists ⟨"linux", true, true, false, ["home", "user"]⟩
        = false
    ∧ (["home", "user"] ++ ["storage", "downloads"] : List String)
        ≠ ["storage", "emulated", "0", "Download"] := by
  decide

/-- C8 as amended: `<home>/ytd` on win32, darwin, non-sandbox linux and
unknown platforms; under the sandbox marker, the shared public folder
whenever its parent `/storage/emulated/0` exists (the `Download` subfolder
is never probed), else the sandbox-local downloads folder under home. -/
theorem c8_default_path (p : Platform) :
    get_default_download_path p = defaultPathAmended p := by
  have hw : strStartsWith "win32" "linux" = false := by decide
  have hd : strStartsWith "darwin" "linux" = false := by decide
  unfold get_default_download_path defaultPathAmended
  by_cases h1 : p.system = "win32"
  · simp [h1, hw]
  · by_cases h2 : p.system = "darwin"
    · simp [h1, h2, hd]
    · by_cases h3 : strStartsWith p.system "linux" = true
      · simp [h1, h2, h3]
      · simp [h1, h2, h3]

/-- Progress hooks never produce terminal messages (yd4.py web hook). -/
theorem yd4_web_hook_not_terminal (e : RawEvent) (m : WsMsg)
    (h : yd4_web_hook e = some m) : isTerminal m = false := by
  unfold yd4_web_hook at h
  split at h
  · split at h
    · injection h with h'; subst h'; rfl
    · exact absurd h (by simp)
  · split at h
    · injection h with h'; subst h'; rfl
    · exact absurd h (by simp)

/-- Progress hooks never produce terminal messages (Yd.py web hook). -/
theorem Yd_web_hook_not_terminal (e : RawEvent) (m : WsMsg)
    (h : Yd_web_hook e = some m) : isTerminal m = false := by
  unfold Yd_web_hook at h
  split at h
  · split at h
    · injection h with h'; subst h'; rfl
    · exact absurd h (by simp)
  · split at h
    · injection h with h'; subst h'; rfl
    · exact absurd h (by simp)

theorem countTerminal_append (l1 l2 : List WsMsg) :
    countTerminal (l1 ++ l2) = countTerminal l1 + countTerminal l2 := by
  simp [countTerminal, List.filter_append]

/-- A hook whose outputs are never terminal contributes no terminal
messages to the channel transcript. -/
theorem countTerminal_filterMap (f : RawEvent → Option WsMsg)
    (hf : ∀ e m, f e = some m → isTerminal m = false) (events : List RawEvent) :
    countTerminal (events.filterMap f) = 0 := by
  induction events with
  | nil => rfl
  | cons e rest ih =>
    cases hfe : f e with
    | none => simpa [countTerminal, List.filterMap_cons, hfe] using ih
    | some m =>
      have hm := hf e m hfe
      simpa [countTerminal, List.filterMap_cons, hfe, List.filter_cons, hm] using ih

/-- A hook whose outputs are never terminal never emits a `done`. -/
theorem done_not_mem_filterMap (f : RawEvent → Option WsMsg)
    (hf : ∀ e m, f e = some m → isTerminal m = false) (events : List RawEvent)
    (p : Option String) : WsMsg.done p ∉ events.filterMap f := by
  intro hmem
  rcases List.mem_filterMap.mp hmem with ⟨e, _, hfe⟩
  have := hf e _ hfe
  simp [isTerminal] at this

/-- C9 counterexample: a Yd.py channel that runs a job to the end terminates
with a `done` message carrying no path (the engine's result, success or
failure, is discarded), so the claimed "the 'done' message carries the final
file path" fails on the Yd.py wire protocol. -/
theorem c9_counterexample :
    Yd_websocket (.ok "https://example.com/v" "video")
      ⟨[], .returns none, ⟨fun _ => false, []⟩⟩ = [WsMsg.done none] := by
  rfl

/-- C9 as amended: on both web variants every job channel is terminated by
exactly one terminal message (`done` or `error`), and that message is the
last message of the channel; in yd4.py the `done` message always carries the
final path (a path-less `done` is never sent), while Yd.py's `done` carries
no path and is sent regardless of the engine's reported outcome. -/
theorem c9_exactly_one_terminal (p : WsParse) (q : YdParse) (outPath : String)
    (mk : Option String) (run run2 : AdapterRun) :
    countTerminal (yd4_websocket p outPath mk run) = 1
    ∧ WsMsg.done none ∉ yd4_websocket p outPath mk run
    ∧ (yd4_websocket p outPath mk run).getLast?.map isTerminal = some true
    ∧ countTerminal (Yd_websocket q run2) = 1
    ∧ (Yd_websocket q run2).getLast?.map isTerminal = some true := by
  have hyd : ∀ (q : YdParse) (run2 : AdapterRun),
      countTerminal (Yd_websocket q run2) = 1
      ∧ (Yd_websocket q run2).getLast?.map isTerminal = some true := by
    intro q run2
    cases q with
    | failed m => exact ⟨rfl, rfl⟩
    | ok u f =>
      constructor
      · rw [Yd_websocket, countTerminal_append,
          countTerminal_filterMap _ Yd_web_hook_not_terminal]
        rfl
      · rw [Yd_websocket, List.getLast?_concat]
        rfl
  refine ⟨?_, ?_, ?_, (hyd q run2).1, (hyd q run2).2⟩
  · cases p with
    | malformed => rfl
    | ok url? format? =>
      simp only [yd4_websocket]
      by_cases hu : pyStrip (url?.getD "") = ""
      · simp [hu, countTerminal, isTerminal]
      · rw [if_neg hu]
        rw [countTerminal_append]
        cases mk with
        | some e => simp [engineDownload, countTerminal, isTerminal]
        | none =>
          rw [countTerminal_filterMap _ yd4_web_hook_not_terminal]
          cases hr : (engineDownload (format?.getD "video") outPath none run).1 <;>
            simp [countTerminal, isTerminal]
  · cases p with
    | malformed => simp [yd4_websocket]
    | ok url? format? =>
      simp only [yd4_websocket]
      by_cases hu : pyStrip (url?.getD "") = ""
      · simp [hu]
      · rw [if_neg hu]
        intro hmem
        rcases List.mem_append.mp hmem with hmem | hmem
        · revert hmem
          cases mk with
          | some e => simp
          | none => exact done_not_mem_filterMap _ yd4_web_hook_not_terminal _ _
        · revert hmem
          cases hr : (engineDownload (format?.getD "video") outPath mk run).1 <;> simp
  · cases p with
    | malformed => rfl
    | ok url? format? =>
      simp only [yd4_websocket]
      by_cases hu : pyStrip (url?.getD "") = ""
      · simp [hu, isTerminal]
      · rw [if_neg hu, List.getLast?_concat]
        cases hr : (engineDownload (format?.getD "video") outPath mk run).1 <;>
          simp [isTerminal]

/-- C10: every format string other than `"audio"` takes the video branch in
both engines — the video format selector, no postprocessors — and the final
expected path is the prepared filename unchanged (no `.mp3` swap). -/
theorem c10_nonaudio_is_video (fmt : String) (h : fmt ≠ "audio") :
    yd4_format_opts fmt = ⟨"bestvideo+bestaudio/best", []⟩
    ∧ Yd_format_opts fmt
        = ⟨"bestvideo[ext=mp4]+bestaudio[ext=m4a]/best[ext=mp4]/best", []⟩
    ∧ ∀ prepared : String, expectedFinalFile fmt prepared = prepared := by
  refine ⟨?_, ?_, ?_⟩ <;> simp [yd4_format_opts, Yd_format_opts, expectedFinalFile, h]

/-- C3 counterexample: the whitespace-only URL `" "` passes the Yd.py TUI
check (which tests only literal emptiness of the unstripped value), so the
worker — and hence the extraction adapter — is invoked and no error is
emitted; the Yd.py websocket likewise runs the job for a whitespace-only URL
instead of failing. -/
theorem c3_counterexample :
    Yd_tui_press " " false = .startedWorker " " "video" ""
    ∧ pressMessage (Yd_tui_press " " false) = none
    ∧ Yd_websocket (.ok " " "video") ⟨[], .returns none, ⟨fun _ => false, []⟩⟩
        = [.done none] := by
  exact ⟨rfl, rfl, rfl⟩

/-- C3 as amended: in yd4.py both front ends reject an empty or
whitespace-only URL with an invalid-request error before any adapter work —
the websocket answers the single error message whatever the adapter run
would have been, and the TUI logs an error without starting a worker; Yd.py
rejects only the literally empty URL in its TUI. -/
theorem c3_blank_url_rejected (u rawPath outPath : String) (f? : Option String)
    (a : Bool) (mk : Option String) (run : AdapterRun)
    (h : pyStrip u = "") :
    yd4_websocket (.ok (some u) f?) outPath mk run = [.error "No URL provided"]
    ∧ yd4_tui_press ⟨false⟩ u rawPath a = .rejected "Error: No URL provided."
    ∧ Yd_tui_press "" a = .rejected "Error: No URL provided." := by
  refine ⟨?_, ?_, ?_⟩
  · simp [yd4_websocket, h]
  · simp [yd4_tui_press, h]
  · simp [Yd_tui_press]

theorem c3_blank_url_rejected_witness :
    pyStrip "   " = ""
    ∧ (yd4_websocket (.ok (some "   ") none) "out" none
          ⟨[], .returns none, ⟨fun _ => false, []⟩⟩ = [.error "No URL provided"]
      ∧ yd4_tui_press ⟨false⟩ "   " "" false = .rejected "Error: No URL provided."
      ∧ Yd_tui_press "" false = .rejected "Error: No URL provided.") :=
  ⟨by decide, c3_blank_url_rejected "   " "" "out" none false none
      ⟨[], .returns none, ⟨fun _ => false, []⟩⟩ (by decide)⟩

/-- C4 counterexample: pressing start in the yd4.py TUI while a job is
running is silently ignored — the handler returns before reading any input,
emitting no `AlreadyRunning` (nor any other) error, rather than rejecting
the call with an error as the claim states. -/
theorem c4_counterexample :
    yd4_tui_press ⟨true⟩ "https://example.com/v" "" false = .ignored
    ∧ pressMessage (yd4_tui_press ⟨true⟩ "https://example.com/v" "" false) = none := by
  exact ⟨rfl, rfl⟩

/-- C4 as amended: a start pressed while `is_downloading` is true is
silently dropped by the front end — no worker is started, no message is
emitted, and the running job is untouched; the engine itself holds no job
state and so has no `AlreadyRunning` guard of its own. -/
theorem c4_second_start_silently_ignored (u p : String) (a : Bool) :
    yd4_tui_press ⟨true⟩ u p a = .ignored
    ∧ pressMessage (yd4_tui_press ⟨true⟩ u p a) = none := by
  exact ⟨rfl, rfl⟩

/-- C5: every adapter exception is caught by the yd4.py engine and converted
to a failure result whose message is the sanitized exception text; the
sanitized text never contains the internal thread-marshalling artifact
`call_from_thread`, whatever the adapter raised. -/
theorem c5_adapter_exception_sanitized (fmt outPath m : String)
    (events : List RawEvent) (fs : FS) :
    engineDownload fmt outPath none ⟨events, .raises m, fs⟩
      = (false, sanitizeError m)
    ∧ containsSubstrB "call_from_thread" (sanitizeError m) = false := by
  refine ⟨rfl, ?_⟩
  unfold sanitizeError
  by_cases h : (containsSubstrB "call_from_thread" m || containsSubstrB "ERROR:" m) = true
  · rw [if_pos h]; decide
  · rw [if_neg h]
    rcases Bool.or_eq_false_iff.mp (Bool.eq_false_iff.mpr h) with ⟨h1, _⟩
    exact h1

theorem c10_nonaudio_is_video_witness :
    ("" : String) ≠ "audio"
    ∧ yd4_format_opts "" = ⟨"bestvideo+bestaudio/best", []⟩
    ∧ Yd_format_opts ""
        = ⟨"bestvideo[ext=mp4]+bestaudio[ext=m4a]/best[ext=mp4]/best", []⟩
    ∧ expectedFinalFile "" "Title.mp4" = "Title.mp4" :=
  ⟨by decide, (c10_nonaudio_is_video "" (by decide)).1,
    (c10_nonaudio_is_video "" (by decide)).2.1,
    (c10_nonaudio_is_video "" (by decide)).2.2 "Title.mp4"⟩

end YD
